import Mathlib

/-!
# Verification of the mev VRM container codec and extension remapper

Shallow embedding of `src/vrm.js` (the GLB container writer
`serialize_glb`, the reference remapper `VrmExtensionMapper`, and the
export pipeline step `attach_vrm_extension`), plus the preset-name
vocabulary `EMOTION_PRESET_GROUPING` from the application file.

Modelling conventions:
* byte buffers are `List Nat` (each entry one byte value);
* JS objects are structures; a JS `Map` used as a dictionary is an
  association list, a JS `Set` is a first-occurrence dedup fold;
* opaque passthrough JSON values (`meta`, `materialValues`,
  `keywordMap`, `tagMap`, float/vector property bags, 3-vectors) are
  modelled as `String` / `List Int`: the code only copies them;
* float scalars that the code only copies verbatim are modelled as
  `Int` — no arithmetic is ever performed on them;
* scene-graph object handles (nodes, textures) are `Nat`; a canonical
  mesh reference is a `List Nat` because `attach_vrm_extension`
  projects its first element (`mesh_ref[0]`) when matching skins;
* JS array indexing, which yields `undefined` out of range, is
  `List.getElem?` returning `Option`; a JS function that can throw a
  `TypeError` returns `Option`.
-/

namespace MevVrm

/-! ## Binary container writer (`serialize_glb`) -/

/-- One little-endian 32-bit unsigned integer as laid down by
`DataView.setUint32(off, n, true)`: four bytes, least significant first
(`setUint32` wraps modulo `2 ^ 32`, which the byte extraction below
reproduces). -/
def u32le (n : Nat) : List Nat :=
  [n % 256, n / 256 % 256, n / 65536 % 256, n / 16777216 % 256]

/-- `getPaddedBufferSize` from `serialize_glb`:
`Math.ceil(bufferSize / 4) * 4`. On a natural number the ceiling
division is `(n + 3) / 4`. -/
def getPaddedBufferSize (bufferSize : Nat) : Nat :=
  (bufferSize + 3) / 4 * 4

/-- `getPaddedArrayBuffer` from `serialize_glb`: if the buffer is
already 4-byte aligned it is returned unchanged; otherwise a fresh
zero-filled buffer of the padded size receives a copy of the input, and
when the padding byte is nonzero the tail is overwritten with it. -/
def getPaddedArrayBuffer (arrayBuffer : List Nat) (paddingByte : Nat) : List Nat :=
  let paddedLength := getPaddedBufferSize arrayBuffer.length
  if paddedLength = arrayBuffer.length then
    arrayBuffer
  else
    let array := arrayBuffer ++ List.replicate (paddedLength - arrayBuffer.length) 0
    if paddingByte ≠ 0 then
      arrayBuffer ++ List.replicate (paddedLength - arrayBuffer.length) paddingByte
    else
      array

def GLB_HEADER_BYTES : Nat := 12
def GLB_HEADER_MAGIC : Nat := 0x46546C67
def GLB_VERSION : Nat := 2
def GLB_CHUNK_PREFIX_BYTES : Nat := 8
def GLB_CHUNK_TYPE_JSON : Nat := 0x4E4F534A
def GLB_CHUNK_TYPE_BIN : Nat := 0x004E4942

/-- One entry of the glTF document's `buffers` array; only its
`byteLength` field is touched by `serialize_glb`. -/
structure BufferEntry where
  byteLength : Nat
  deriving DecidableEq

/-- The glTF JSON document as far as `serialize_glb` inspects it: its
`buffers` array plus the rest of the document, opaque to the writer
(it only flows into `JSON.stringify`). -/
structure GltfJson where
  buffers : List BufferEntry
  restJson : String
  deriving DecidableEq

/-- The argument of `serialize_glb`: `obj.json` and `obj.buffers`. -/
structure GlbInput where
  json : GltfJson
  buffers : List (List Nat)
  deriving DecidableEq

/-- The mutation `outputJSON.buffers[0].byteLength = blob.size` in
`serialize_glb`, where `blob` merges all input buffers. `none` models
the `TypeError` the assignment throws when the document declares no
buffer entry. -/
def glbUpdatedJson (obj : GlbInput) : Option GltfJson :=
  match obj.json.buffers with
  | [] => none
  | b0 :: tl =>
      some { obj.json with buffers := { b0 with byteLength := obj.buffers.flatten.length } :: tl }

/-- `serialize_glb`. `stringify` stands for
`new TextEncoder().encode(JSON.stringify(·))`, the external UTF-8 text
encoding of the document; everything else is byte-exact: the merged
binary chunk padded with zeros, the JSON chunk padded with `0x20`,
each chunk led by an 8-byte (length, type) pair, and the 12-byte
header (magic, version, total length). -/
def serialize_glb (stringify : GltfJson → List Nat) (obj : GlbInput) : Option (List Nat) :=
  (glbUpdatedJson obj).map (fun outputJSON =>
    let binaryChunk := getPaddedArrayBuffer obj.buffers.flatten 0
    let binaryChunkPre := u32le binaryChunk.length ++ u32le GLB_CHUNK_TYPE_BIN
    let jsonChunk := getPaddedArrayBuffer (stringify outputJSON) 0x20
    let jsonChunkPre := u32le jsonChunk.length ++ u32le GLB_CHUNK_TYPE_JSON
    let totalByteLength := GLB_HEADER_BYTES + jsonChunkPre.length + jsonChunk.length
        + binaryChunkPre.length + binaryChunk.length
    let header := u32le GLB_HEADER_MAGIC ++ u32le GLB_VERSION ++ u32le totalByteLength
    header ++ jsonChunkPre ++ jsonChunk ++ binaryChunkPre ++ binaryChunk)

/-! ## Canonical / wire extension document

The schema walked by `VrmExtensionMapper.convert_vrm`, polymorphic in
the three reference types (`N` node, `M` mesh, `T` texture): on the
canonical side `N = Nat` handle, `M = List Nat` (the object whose
first element `attach_vrm_extension` compares against skins),
`T = Nat`; on the wire side all three are `Nat` indices; after import
they are `Option`-wrapped lookups. Fields follow the spec's data
model; `lookAtHorizontalOuter` is in the extension schema (and the
spec's FirstPerson entity: four look-at angle limits) but
`_convert_firstperson` never copies it, so the field is an `Option`
whose `none` models the key being absent from an output object. -/

structure BlendShapeBind (M : Type) where
  mesh : M
  index : Nat
  weight : Int
  deriving DecidableEq

structure BlendShapeGroup (M : Type) where
  name : String
  presetName : String
  binds : List (BlendShapeBind M)
  materialValues : String
  deriving DecidableEq

structure BlendShapeMaster (M : Type) where
  blendShapeGroups : List (BlendShapeGroup M)
  deriving DecidableEq

structure HumanoidBone (N : Type) where
  bone : String
  node : N
  useDefaultValues : Bool
  min : Option (List Int)
  max : Option (List Int)
  center : Option (List Int)
  axisLength : Option Int
  deriving DecidableEq

structure Humanoid (N : Type) where
  humanBones : List (HumanoidBone N)
  armStretch : Int
  legStretch : Int
  upperArmTwist : Int
  lowerArmTwist : Int
  upperLegTwist : Int
  lowerLegTwist : Int
  feetSpacing : Int
  hasTranslationDoF : Bool
  deriving DecidableEq

structure MeshAnnot (M : Type) where
  mesh : M
  firstPersonFlag : String
  deriving DecidableEq

structure FirstPerson (N M : Type) where
  firstPersonBone : N
  firstPersonBoneOffset : List Int
  meshAnnotations : List (MeshAnnot M)
  lookAtTypeName : String
  lookAtHorizontalInner : Int
  lookAtHorizontalOuter : Option Int
  lookAtVerticalDown : Int
  lookAtVerticalUp : Int
  deriving DecidableEq

structure MaterialProperties (T : Type) where
  name : String
  shader : String
  renderQueue : Int
  floatProperties : String
  vectorProperties : String
  textureProperties : List (String × T)
  keywordMap : String
  tagMap : String
  deriving DecidableEq

structure Vrm (N M T : Type) where
  blendShapeMaster : BlendShapeMaster M
  humanoid : Humanoid N
  firstPerson : FirstPerson N M
  materialProperties : List (MaterialProperties T)
  meta : String
  secondaryAnimation : List (String × String)
  deriving DecidableEq

/-- The resolver triple handed to the `VrmExtensionMapper`
constructor: `map_node`, `map_mesh`, `map_texture`. -/
structure VrmMapper (N M T N2 M2 T2 : Type) where
  map_node : N → N2
  map_mesh : M → M2
  map_texture : T → T2

variable {N M T N2 M2 T2 : Type}

/-- `VrmExtensionMapper._convert_blendshape_bind`. -/
def _convert_blendshape_bind (mp : VrmMapper N M T N2 M2 T2)
    (bind : BlendShapeBind M) : BlendShapeBind M2 :=
  { mesh := mp.map_mesh bind.mesh
    index := bind.index
    weight := bind.weight }

/-- `VrmExtensionMapper._convert_blendshape_group`. Note that
`presetName` is copied verbatim. -/
def _convert_blendshape_group (mp : VrmMapper N M T N2 M2 T2)
    (group : BlendShapeGroup M) : BlendShapeGroup M2 :=
  { name := group.name
    presetName := group.presetName
    binds := group.binds.map (_convert_blendshape_bind mp)
    materialValues := group.materialValues }

/-- `VrmExtensionMapper._convert_blendshape`. -/
def _convert_blendshape (mp : VrmMapper N M T N2 M2 T2)
    (blendshape : BlendShapeMaster M) : BlendShapeMaster M2 :=
  { blendShapeGroups := blendshape.blendShapeGroups.map (_convert_blendshape_group mp) }

/-- `VrmExtensionMapper._convert_humanoid_bone`. -/
def _convert_humanoid_bone (mp : VrmMapper N M T N2 M2 T2)
    (bone : HumanoidBone N) : HumanoidBone N2 :=
  { bone := bone.bone
    node := mp.map_node bone.node
    useDefaultValues := bone.useDefaultValues
    min := bone.min
    max := bone.max
    center := bone.center
    axisLength := bone.axisLength }

/-- `VrmExtensionMapper._convert_humanoid`. -/
def _convert_humanoid (mp : VrmMapper N M T N2 M2 T2)
    (humanoid : Humanoid N) : Humanoid N2 :=
  { humanBones := humanoid.humanBones.map (_convert_humanoid_bone mp)
    armStretch := humanoid.armStretch
    legStretch := humanoid.legStretch
    upperArmTwist := humanoid.upperArmTwist
    lowerArmTwist := humanoid.lowerArmTwist
    upperLegTwist := humanoid.upperLegTwist
    lowerLegTwist := humanoid.lowerLegTwist
    feetSpacing := humanoid.feetSpacing
    hasTranslationDoF := humanoid.hasTranslationDoF }

/-- `VrmExtensionMapper._convert_firstperson_meshannotation`. -/
def _convert_firstperson_meshannot (mp : VrmMapper N M T N2 M2 T2)
    (annot : MeshAnnot M) : MeshAnnot M2 :=
  { mesh := mp.map_mesh annot.mesh
    firstPersonFlag := annot.firstPersonFlag }

/-- `VrmExtensionMapper._convert_firstperson`. The source object
literal lists `firstPersonBone`, `firstPersonBoneOffset`,
`meshAnnotations`, `lookAtTypeName`, `lookAtHorizontalInner`,
`lookAtVerticalDown` and `lookAtVerticalUp` — `lookAtHorizontalOuter`
is not among the copied keys, so it is absent (`none`) from every
output. -/
def _convert_firstperson (mp : VrmMapper N M T N2 M2 T2)
    (firstperson : FirstPerson N M) : FirstPerson N2 M2 :=
  { firstPersonBone := mp.map_node firstperson.firstPersonBone
    firstPersonBoneOffset := firstperson.firstPersonBoneOffset
    meshAnnotations := firstperson.meshAnnotations.map (_convert_firstperson_meshannot mp)
    lookAtTypeName := firstperson.lookAtTypeName
    lookAtHorizontalInner := firstperson.lookAtHorizontalInner
    lookAtHorizontalOuter := none
    lookAtVerticalDown := firstperson.lookAtVerticalDown
    lookAtVerticalUp := firstperson.lookAtVerticalUp }

/-- `VrmExtensionMapper._convert_material`: every `textureProperties`
value runs through `map_texture`, keys pass through unchanged; all
other fields are copied. -/
def _convert_material (mp : VrmMapper N M T N2 M2 T2)
    (mat : MaterialProperties T) : MaterialProperties T2 :=
  { name := mat.name
    shader := mat.shader
    renderQueue := mat.renderQueue
    floatProperties := mat.floatProperties
    vectorProperties := mat.vectorProperties
    textureProperties := mat.textureProperties.map (fun kv => (kv.1, mp.map_texture kv.2))
    keywordMap := mat.keywordMap
    tagMap := mat.tagMap }

/-- `VrmExtensionMapper.convert_vrm`: the full schema walk. The output
`secondaryAnimation` is the empty object `\x7b\x7d` regardless of the
input, modelled as the empty key-value list. -/
def convert_vrm (mp : VrmMapper N M T N2 M2 T2) (vrm : Vrm N M T) : Vrm N2 M2 T2 :=
  { blendShapeMaster := _convert_blendshape mp vrm.blendShapeMaster
    humanoid := _convert_humanoid mp vrm.humanoid
    firstPerson := _convert_firstperson mp vrm.firstPerson
    materialProperties := vrm.materialProperties.map (_convert_material mp)
    meta := vrm.meta
    secondaryAnimation := [] }

/-! ## Export direction (`serialize_vrm` / `attach_vrm_extension`) -/

/-- The `map_node` closure built inside `attach_vrm_extension`:
`obj.nodeMap.get(node_ref)`, falling back to index `0` with a
`console.warn` when the node is absent. The second component records
whether the warning was emitted. -/
def map_node_export (nodeMap : List (Nat × Nat)) (node_ref : Nat) : Nat × Bool :=
  match List.lookup node_ref nodeMap with
  | none => (0, true)
  | some node_id => (node_id, false)

/-- The `map_mesh` closure built inside `attach_vrm_extension`:
`obj.skins.findIndex(e => e === mesh_ref[0])` — the skin list, not the
mesh list, is scanned, comparing each skin against the first element
of the reference — falling back to index `0` with a `console.warn`
when no skin matches. The second component records the warning. -/
def map_mesh_export (skins : List Nat) (mesh_ref : List Nat) : Nat × Bool :=
  match skins.findIdx? (fun e => mesh_ref.head? == some e) with
  | none => (0, true)
  | some skin_id => (skin_id, false)

/-- The `map_texture` closure built inside `attach_vrm_extension`:
always the placeholder index `0` (texture export is unimplemented). -/
def map_texture_export (_tex_ref : Nat) : Nat := 0

/-- The `VrmExtensionMapper` constructed by `attach_vrm_extension`
(`ref_to_id`). -/
def exportMapper (nodeMap : List (Nat × Nat)) (skins : List Nat) :
    VrmMapper Nat (List Nat) Nat Nat Nat Nat :=
  { map_node := fun node_ref => (map_node_export nodeMap node_ref).1
    map_mesh := fun mesh_ref => (map_mesh_export skins mesh_ref).1
    map_texture := map_texture_export }

/-- The state of the exporter result object that
`attach_vrm_extension` reads and writes: `json.extensionsUsed`
(possibly undefined), the attached `json.extensions.VRM` entry (the
wire extension paired with its `exporterVersion` string), the
exporter's node-to-index map and its skin list. -/
structure GltfExportObj where
  extensionsUsed : Option (List String)
  extVRM : Option (Vrm Nat Nat Nat × String)
  nodeMap : List (Nat × Nat)
  skins : List Nat

/-- `Array.from(new Set(l))`: first-occurrence-preserving
deduplication, as a fold inserting each element only when absent. -/
def jsSetInsert (acc : List String) (x : String) : List String :=
  if x ∈ acc then acc else acc ++ [x]

def jsSetOfList (l : List String) : List String :=
  l.foldl jsSetInsert []

/-- `attach_vrm_extension`: convert the canonical extension with the
export resolvers, record `exporterVersion`, store the result at
`json.extensions.VRM`, and set
`json.extensionsUsed = Array.from(new Set(["VRM", ...extensionsUsed]))`
(an absent `extensionsUsed` is first initialised to `[]`). -/
def attach_vrm_extension (vrm_ext : Vrm Nat (List Nat) Nat) (obj : GltfExportObj) :
    GltfExportObj :=
  let used := obj.extensionsUsed.getD []
  let ref_to_id := exportMapper obj.nodeMap obj.skins
  let ext_with_ids := convert_vrm ref_to_id vrm_ext
  { obj with
    extVRM := some (ext_with_ids, "me/v")
    extensionsUsed := some (jsSetOfList ("VRM" :: used)) }

/-! ## Import direction (`parse_vrm`) -/

/-- The `VrmExtensionMapper` constructed by `parse_vrm`
(`ref_to_real`): each resolver is a plain index into the array of
already-resolved loader objects; JS indexing out of range yields
`undefined`, hence the `Option` results. -/
def importMapper (nodes : List Nat) (meshes : List (List Nat)) (textures : List Nat) :
    VrmMapper Nat Nat Nat (Option Nat) (Option (List Nat)) (Option Nat) :=
  { map_node := fun id => nodes[id]?
    map_mesh := fun id => meshes[id]?
    map_texture := fun id => textures[id]? }

/-- `EMOTION_PRESET_GROUPING` from the application file: the fixed
known preset-name vocabulary (everything else is grouped as
"unknown" downstream). -/
def EMOTION_PRESET_GROUPING : List (List String) :=
  [["neutral"],
   ["a", "i", "u", "e", "o"],
   ["joy", "angry", "sorrow", "fun"],
   ["blink", "blink_l", "blink_r"],
   ["lookleft", "lookright", "lookup", "lookdown"]]

/-! ## Reference collectors and the round-trip image -/

/-- Every node reference occurring in a canonical extension document:
one per humanoid bone, plus the first-person bone. -/
def vrmNodeRefs (vrm : Vrm Nat (List Nat) Nat) : List Nat :=
  vrm.humanoid.humanBones.map (fun b => b.node) ++ [vrm.firstPerson.firstPersonBone]

/-- Every mesh reference occurring in a canonical extension document:
one per blendshape bind, plus one per first-person mesh annotation. -/
def vrmMeshRefs (vrm : Vrm Nat (List Nat) Nat) : List (List Nat) :=
  (vrm.blendShapeMaster.blendShapeGroups.map (fun g => g.binds.map (fun b => b.mesh))).flatten
    ++ vrm.firstPerson.meshAnnotations.map (fun a => a.mesh)

/-- Expected image of a canonical document under export followed
by import, per the amended round-trip claim: every node and mesh
reference comes back `some`-wrapped (its resolution succeeded in both
directions), every texture reference collapses to the import of the
placeholder index `0`, `secondaryAnimation` is emptied, and
`firstPerson.lookAtHorizontalOuter` is dropped. All other fields are
preserved verbatim. -/
def roundTripExpected (t0 : Option Nat) (vrm : Vrm Nat (List Nat) Nat) :
    Vrm (Option Nat) (Option (List Nat)) (Option Nat) :=
  { blendShapeMaster :=
      { blendShapeGroups := vrm.blendShapeMaster.blendShapeGroups.map (fun g =>
          { name := g.name
            presetName := g.presetName
            binds := g.binds.map (fun b =>
              { mesh := some b.mesh, index := b.index, weight := b.weight })
            materialValues := g.materialValues }) }
    humanoid :=
      { humanBones := vrm.humanoid.humanBones.map (fun b =>
          { bone := b.bone
            node := some b.node
            useDefaultValues := b.useDefaultValues
            min := b.min
            max := b.max
            center := b.center
            axisLength := b.axisLength })
        armStretch := vrm.humanoid.armStretch
        legStretch := vrm.humanoid.legStretch
        upperArmTwist := vrm.humanoid.upperArmTwist
        lowerArmTwist := vrm.humanoid.lowerArmTwist
        upperLegTwist := vrm.humanoid.upperLegTwist
        lowerLegTwist := vrm.humanoid.lowerLegTwist
        feetSpacing := vrm.humanoid.feetSpacing
        hasTranslationDoF := vrm.humanoid.hasTranslationDoF }
    firstPerson :=
      { firstPersonBone := some vrm.firstPerson.firstPersonBone
        firstPersonBoneOffset := vrm.firstPerson.firstPersonBoneOffset
        meshAnnotations := vrm.firstPerson.meshAnnotations.map (fun a =>
          { mesh := some a.mesh, firstPersonFlag := a.firstPersonFlag })
        lookAtTypeName := vrm.firstPerson.lookAtTypeName
        lookAtHorizontalInner := vrm.firstPerson.lookAtHorizontalInner
        lookAtHorizontalOuter := none
        lookAtVerticalDown := vrm.firstPerson.lookAtVerticalDown
        lookAtVerticalUp := vrm.firstPerson.lookAtVerticalUp }
    materialProperties := vrm.materialProperties.map (fun m =>
      { name := m.name
        shader := m.shader
        renderQueue := m.renderQueue
        floatProperties := m.floatProperties
        vectorProperties := m.vectorProperties
        textureProperties := m.textureProperties.map (fun kv => (kv.1, t0))
        keywordMap := m.keywordMap
        tagMap := m.tagMap })
    meta := vrm.meta
    secondaryAnimation := [] }

/-! ## Concrete documents used by witnesses and counterexamples -/

/-- Writer witness input: one declared buffer entry, one 3-byte raw
buffer. -/
def objW : GlbInput :=
  { json := { buffers := [{ byteLength := 0 }], restJson := "doc" }
    buffers := [[1, 2, 3]] }

/-- The document after the byteLength update on `objW`. -/
def ojW : GltfJson :=
  { buffers := [{ byteLength := 3 }], restJson := "doc" }

/-- Stand-in for `JSON.stringify` + UTF-8 encoding in witnesses: a
fixed 2-byte encoding. -/
def stW : GltfJson → List Nat := fun _ => [123, 125]

/-- A fully resolvable canonical document: node reference `5`, mesh
reference `[7]`, texture reference `3`, a nonempty
`secondaryAnimation`, and `lookAtHorizontalOuter` present. -/
def exVrm : Vrm Nat (List Nat) Nat :=
  { blendShapeMaster :=
      { blendShapeGroups :=
          [{ name := "Smile"
             presetName := "joy"
             binds := [{ mesh := [7], index := 5, weight := 1 }]
             materialValues := "mv" }] }
    humanoid :=
      { humanBones :=
          [{ bone := "hips", node := 5, useDefaultValues := true
             min := none, max := none, center := none, axisLength := none }]
        armStretch := 1, legStretch := 2, upperArmTwist := 3, lowerArmTwist := 4
        upperLegTwist := 5, lowerLegTwist := 6, feetSpacing := 0
        hasTranslationDoF := false }
    firstPerson :=
      { firstPersonBone := 5
        firstPersonBoneOffset := [0, 1, 0]
        meshAnnotations := [{ mesh := [7], firstPersonFlag := "Auto" }]
        lookAtTypeName := "Bone"
        lookAtHorizontalInner := 90
        lookAtHorizontalOuter := some 42
        lookAtVerticalDown := 80
        lookAtVerticalUp := 80 }
    materialProperties :=
      [{ name := "mat", shader := "VRM/MToon", renderQueue := 2000
         floatProperties := "fp", vectorProperties := "vp"
         textureProperties := [("_MainTex", 3)]
         keywordMap := "kw", tagMap := "tg" }]
    meta := "meta"
    secondaryAnimation := [("boneGroups", "nonempty")] }

def exNodeMap : List (Nat × Nat) := [(5, 0)]
def exSkins : List Nat := [7]
def exNodes : List Nat := [5]
def exMeshes : List (List Nat) := [[7]]
def exTextures : List Nat := [9]

/-- A document whose node reference `3` is absent from an empty node
map and whose mesh reference `[4]` matches no skin. -/
def danglingVrm : Vrm Nat (List Nat) Nat :=
  { blendShapeMaster :=
      { blendShapeGroups :=
          [{ name := "G"
             presetName := "neutral"
             binds := [{ mesh := [4], index := 1, weight := 2 }]
             materialValues := "mv" }] }
    humanoid :=
      { humanBones :=
          [{ bone := "hips", node := 3, useDefaultValues := true
             min := none, max := none, center := none, axisLength := none }]
        armStretch := 0, legStretch := 0, upperArmTwist := 0, lowerArmTwist := 0
        upperLegTwist := 0, lowerLegTwist := 0, feetSpacing := 0
        hasTranslationDoF := false }
    firstPerson :=
      { firstPersonBone := 3
        firstPersonBoneOffset := [0, 0, 0]
        meshAnnotations := [{ mesh := [4], firstPersonFlag := "Auto" }]
        lookAtTypeName := "Bone"
        lookAtHorizontalInner := 0
        lookAtHorizontalOuter := none
        lookAtVerticalDown := 0
        lookAtVerticalUp := 0 }
    materialProperties := []
    meta := "m"
    secondaryAnimation := [] }

/-- A document with one blendshape group whose presetName is outside
the known vocabulary. -/
def cexPresetVrm : Vrm Nat (List Nat) Nat :=
  { danglingVrm with
    blendShapeMaster :=
      { blendShapeGroups :=
          [{ name := "Happy"
             presetName := "happyface"
             binds := []
             materialValues := "mv" }] } }

/-! ## Padding lemmas -/

theorem getPaddedBufferSize_ge (n : Nat) : n ≤ getPaddedBufferSize n := by
  unfold getPaddedBufferSize
  omega

theorem getPaddedBufferSize_mod (n : Nat) : getPaddedBufferSize n % 4 = 0 := by
  unfold getPaddedBufferSize
  omega

/-- Whatever branch `getPaddedArrayBuffer` takes, the result is the
input followed by enough copies of the padding byte to reach the
padded size. -/
theorem getPaddedArrayBuffer_eq (arr : List Nat) (p : Nat) :
    getPaddedArrayBuffer arr p =
      arr ++ List.replicate (getPaddedBufferSize arr.length - arr.length) p := by
  unfold getPaddedArrayBuffer
  by_cases h : getPaddedBufferSize arr.length = arr.length
  · simp [h]
  · by_cases hp : p = 0
    · simp [h, hp]
    · simp [h, hp]

theorem getPaddedArrayBuffer_length (arr : List Nat) (p : Nat) :
    (getPaddedArrayBuffer arr p).length = getPaddedBufferSize arr.length := by
  rw [getPaddedArrayBuffer_eq, List.length_append, List.length_replicate]
  have := getPaddedBufferSize_ge arr.length
  omega

/-- The full byte layout of a successfully produced container. -/
theorem serialize_glb_eq (stringify : GltfJson → List Nat) (obj : GlbInput)
    (oj : GltfJson) (h : glbUpdatedJson obj = some oj) :
    serialize_glb stringify obj =
      some (u32le GLB_HEADER_MAGIC ++ u32le GLB_VERSION ++
        u32le (12 + 8 + (getPaddedArrayBuffer (stringify oj) 0x20).length
               + 8 + (getPaddedArrayBuffer obj.buffers.flatten 0).length) ++
        u32le (getPaddedArrayBuffer (stringify oj) 0x20).length ++
        u32le GLB_CHUNK_TYPE_JSON ++
        getPaddedArrayBuffer (stringify oj) 0x20 ++
        u32le (getPaddedArrayBuffer obj.buffers.flatten 0).length ++
        u32le GLB_CHUNK_TYPE_BIN ++
        getPaddedArrayBuffer obj.buffers.flatten 0) := by
  simp only [serialize_glb, h, Option.map_some', Option.some.injEq]
  simp [GLB_HEADER_BYTES, u32le, List.append_assoc]

/-! ## Claim theorems: container writer -/

/-- C4: for every length `L`, `getPaddedBufferSize L` is the smallest
multiple of 4 that is greater than or equal to `L`, and the function
is idempotent. -/
theorem getPaddedBufferSize_correct (L : Nat) :
    L ≤ getPaddedBufferSize L ∧ 4 ∣ getPaddedBufferSize L ∧
      (∀ m : Nat, 4 ∣ m → L ≤ m → getPaddedBufferSize L ≤ m) ∧
      getPaddedBufferSize (getPaddedBufferSize L) = getPaddedBufferSize L := by
  unfold getPaddedBufferSize
  refine ⟨by omega, dvd_mul_left 4 ((L + 3) / 4), ?_, by omega⟩
  intro m hm hLm
  obtain ⟨k, rfl⟩ := hm
  omega

/-- C4 witness, at `L = 5`: the padded size is at least 5 and at most
the multiple-of-4 bound 8. -/
theorem getPaddedBufferSize_correct_witness :
    5 ≤ getPaddedBufferSize 5 ∧ getPaddedBufferSize 5 ≤ 8 :=
  ⟨(getPaddedBufferSize_correct 5).1,
   (getPaddedBufferSize_correct 5).2.2.1 8 (by decide) (by decide)⟩

/-- C2: every container byte stream the writer produces begins with
the 12-byte header — magic constant, version constant 2, and a total
length equal to `12 + 8 + paddedJSON + 8 + paddedBIN` — each laid
down as a little-endian 32-bit unsigned integer. -/
theorem serialize_glb_header_invariant (stringify : GltfJson → List Nat)
    (obj : GlbInput) (oj : GltfJson) (h : glbUpdatedJson obj = some oj) :
    ∃ rest : List Nat,
      serialize_glb stringify obj =
        some (u32le GLB_HEADER_MAGIC ++ u32le GLB_VERSION ++
          u32le (12 + 8 + (getPaddedArrayBuffer (stringify oj) 0x20).length
                 + 8 + (getPaddedArrayBuffer obj.buffers.flatten 0).length) ++ rest) :=
  ⟨_, serialize_glb_eq stringify obj oj h⟩

/-- C2 witness on a concrete 3-byte buffer and 2-byte JSON encoding. -/
theorem serialize_glb_header_invariant_witness :
    ∃ rest : List Nat,
      serialize_glb stW objW =
        some (u32le GLB_HEADER_MAGIC ++ u32le GLB_VERSION ++
          u32le (12 + 8 + (getPaddedArrayBuffer (stW ojW) 0x20).length
                 + 8 + (getPaddedArrayBuffer objW.buffers.flatten 0).length) ++ rest) :=
  serialize_glb_header_invariant stW objW ojW rfl

/-- C3: in every produced container both chunk payloads are 4-byte
aligned; the JSON chunk is the encoded document padded with `0x20`
bytes and the binary chunk is the concatenated buffers padded with
zero bytes; and any 10-byte payload pads to 12 bytes, the 2 extra
bytes being `0` in the binary chunk and `0x20` in the JSON chunk. -/
theorem serialize_glb_chunk_padding (stringify : GltfJson → List Nat)
    (obj : GlbInput) (oj : GltfJson) (h : glbUpdatedJson obj = some oj) :
    serialize_glb stringify obj =
      some (u32le GLB_HEADER_MAGIC ++ u32le GLB_VERSION ++
        u32le (12 + 8 + (getPaddedArrayBuffer (stringify oj) 0x20).length
               + 8 + (getPaddedArrayBuffer obj.buffers.flatten 0).length) ++
        u32le (getPaddedArrayBuffer (stringify oj) 0x20).length ++
        u32le GLB_CHUNK_TYPE_JSON ++
        getPaddedArrayBuffer (stringify oj) 0x20 ++
        u32le (getPaddedArrayBuffer obj.buffers.flatten 0).length ++
        u32le GLB_CHUNK_TYPE_BIN ++
        getPaddedArrayBuffer obj.buffers.flatten 0) ∧
    (getPaddedArrayBuffer (stringify oj) 0x20).length % 4 = 0 ∧
    (getPaddedArrayBuffer obj.buffers.flatten 0).length % 4 = 0 ∧
    getPaddedArrayBuffer (stringify oj) 0x20 =
      stringify oj ++
        List.replicate (getPaddedBufferSize (stringify oj).length - (stringify oj).length) 0x20 ∧
    getPaddedArrayBuffer obj.buffers.flatten 0 =
      obj.buffers.flatten ++
        List.replicate
          (getPaddedBufferSize obj.buffers.flatten.length - obj.buffers.flatten.length) 0 ∧
    (∀ b : List Nat, b.length = 10 →
      getPaddedArrayBuffer b 0 = b ++ [0, 0] ∧
      getPaddedArrayBuffer b 0x20 = b ++ [0x20, 0x20]) := by
  refine ⟨serialize_glb_eq stringify obj oj h, ?_, ?_,
    getPaddedArrayBuffer_eq _ _, getPaddedArrayBuffer_eq _ _, ?_⟩
  · rw [getPaddedArrayBuffer_length]
    exact getPaddedBufferSize_mod _
  · rw [getPaddedArrayBuffer_length]
    exact getPaddedBufferSize_mod _
  · intro b hb
    constructor <;> · rw [getPaddedArrayBuffer_eq, hb]; rfl

/-- C3 witness on a concrete 3-byte buffer and 2-byte JSON encoding. -/
theorem serialize_glb_chunk_padding_witness :
    serialize_glb stW objW =
      some (u32le GLB_HEADER_MAGIC ++ u32le GLB_VERSION ++
        u32le (12 + 8 + (getPaddedArrayBuffer (stW ojW) 0x20).length
               + 8 + (getPaddedArrayBuffer objW.buffers.flatten 0).length) ++
        u32le (getPaddedArrayBuffer (stW ojW) 0x20).length ++
        u32le GLB_CHUNK_TYPE_JSON ++
        getPaddedArrayBuffer (stW ojW) 0x20 ++
        u32le (getPaddedArrayBuffer objW.buffers.flatten 0).length ++
        u32le GLB_CHUNK_TYPE_BIN ++
        getPaddedArrayBuffer objW.buffers.flatten 0) ∧
    (getPaddedArrayBuffer (stW ojW) 0x20).length % 4 = 0 ∧
    (getPaddedArrayBuffer objW.buffers.flatten 0).length % 4 = 0 ∧
    getPaddedArrayBuffer (stW ojW) 0x20 =
      stW ojW ++
        List.replicate (getPaddedBufferSize (stW ojW).length - (stW ojW).length) 0x20 ∧
    getPaddedArrayBuffer objW.buffers.flatten 0 =
      objW.buffers.flatten ++
        List.replicate
          (getPaddedBufferSize objW.buffers.flatten.length - objW.buffers.flatten.length) 0 ∧
    (∀ b : List Nat, b.length = 10 →
      getPaddedArrayBuffer b 0 = b ++ [0, 0] ∧
      getPaddedArrayBuffer b 0x20 = b ++ [0x20, 0x20]) :=
  serialize_glb_chunk_padding stW objW ojW rfl

/-- C8: before any chunk is framed the buffers are merged into one
contiguous region and the document's first declared buffer entry gets
its `byteLength` set to the merged, unpadded size; padding affects
only the physical chunk length, never this recorded value. -/
theorem serialize_glb_buffer_byteLength (obj : GlbInput) (b0 : BufferEntry)
    (tl : List BufferEntry) (h : obj.json.buffers = b0 :: tl) :
    glbUpdatedJson obj =
      some { buffers := { byteLength := obj.buffers.flatten.length } :: tl
             restJson := obj.json.restJson } ∧
    (getPaddedArrayBuffer obj.buffers.flatten 0).length =
      getPaddedBufferSize obj.buffers.flatten.length := by
  refine ⟨?_, getPaddedArrayBuffer_length _ _⟩
  simp [glbUpdatedJson, h]

/-- C8 witness on a concrete 3-byte buffer. -/
theorem serialize_glb_buffer_byteLength_witness :
    glbUpdatedJson objW =
      some { buffers := { byteLength := objW.buffers.flatten.length } :: ([] : List BufferEntry)
             restJson := objW.json.restJson } ∧
    (getPaddedArrayBuffer objW.buffers.flatten 0).length =
      getPaddedBufferSize objW.buffers.flatten.length :=
  serialize_glb_buffer_byteLength objW { byteLength := 0 } [] rfl

/-! ## Resolver round-trip lemmas -/

/-- If looking a node reference up in the export map and indexing
the import array with the result returns the reference, then the composed
export/import node resolution is the identity on it. -/
theorem node_round (nodeMap : List (Nat × Nat)) (nodes : List Nat) (r : Nat)
    (h : (List.lookup r nodeMap).bind (fun i => nodes[i]?) = some r) :
    nodes[(map_node_export nodeMap r).1]? = some r := by
  unfold map_node_export
  cases hl : List.lookup r nodeMap with
  | none =>
      rw [hl] at h
      simp at h
  | some i =>
      rw [hl] at h
      simpa using h

/-- The mesh analogue of `node_round`, through the skin-list scan. -/
theorem mesh_round (skins : List Nat) (meshes : List (List Nat)) (m : List Nat)
    (h : (skins.findIdx? (fun e => m.head? == some e)).bind (fun j => meshes[j]?) = some m) :
    meshes[(map_mesh_export skins m).1]? = some m := by
  unfold map_mesh_export
  cases hf : skins.findIdx? (fun e => m.head? == some e) with
  | none =>
      rw [hf] at h
      simp at h
  | some j =>
      rw [hf] at h
      simpa using h

/-! ## JS Set lemmas -/

theorem jsSetInsert_nodup (acc : List String) (x : String) (h : acc.Nodup) :
    (jsSetInsert acc x).Nodup := by
  unfold jsSetInsert
  split
  · exact h
  · next hx =>
      rw [List.nodup_append]
      refine ⟨h, List.nodup_singleton x, fun a ha hax => ?_⟩
      rw [List.mem_singleton] at hax
      exact hx (hax ▸ ha)

theorem foldl_jsSetInsert_nodup (l : List String) :
    ∀ acc : List String, acc.Nodup → (l.foldl jsSetInsert acc).Nodup := by
  induction l with
  | nil => exact fun _ h => h
  | cons x xs ih => exact fun acc h => ih _ (jsSetInsert_nodup acc x h)

theorem mem_foldl_jsSetInsert (l : List String) :
    ∀ (acc : List String) (x : String), x ∈ acc → x ∈ l.foldl jsSetInsert acc := by
  induction l with
  | nil => exact fun _ _ h => h
  | cons y ys ih =>
      intro acc x h
      refine ih _ x ?_
      unfold jsSetInsert
      split
      · exact h
      · exact List.mem_append_left _ h

theorem jsSetOfList_nodup (l : List String) : (jsSetOfList l).Nodup :=
  foldl_jsSetInsert_nodup l [] List.nodup_nil

theorem mem_jsSetOfList_head (x : String) (l : List String) : x ∈ jsSetOfList (x :: l) := by
  unfold jsSetOfList
  rw [List.foldl_cons]
  refine mem_foldl_jsSetInsert l _ x ?_
  simp [jsSetInsert]

/-! ## Claim theorems: remapper and pipelines -/

/-- C9: after the attach step runs — even when invoked twice on the
same document — the `extensionsUsed` declaration contains "VRM" and
holds no duplicate entries. -/
theorem attach_vrm_extension_extensionsUsed (v : Vrm Nat (List Nat) Nat)
    (obj : GltfExportObj) :
    ∃ l1 l2 : List String,
      (attach_vrm_extension v obj).extensionsUsed = some l1 ∧
      "VRM" ∈ l1 ∧ l1.Nodup ∧
      (attach_vrm_extension v (attach_vrm_extension v obj)).extensionsUsed = some l2 ∧
      "VRM" ∈ l2 ∧ l2.Nodup :=
  ⟨_, _, rfl, mem_jsSetOfList_head _ _, jsSetOfList_nodup _,
   rfl, mem_jsSetOfList_head _ _, jsSetOfList_nodup _⟩

/-- C10: the import-direction conversion discards spring-bone data as
well: the canonical extension produced by the index-to-object walk has
an empty `secondaryAnimation`, whatever the wire document contained. -/
theorem import_discards_secondaryAnim (nodes : List Nat) (meshes : List (List Nat))
    (textures : List Nat) (wire : Vrm Nat Nat Nat) :
    (convert_vrm (importMapper nodes meshes textures) wire).secondaryAnimation = [] := rfl

/-- C6 counterexample: a blendshape group whose `presetName`
"happyface" is outside the known vocabulary is emitted with
`presetName` still "happyface", not the literal "unknown" — the
conversion performs no normalization. -/
theorem presetName_not_normalized_cex :
    "happyface" ∉ EMOTION_PRESET_GROUPING.flatten ∧
    ((convert_vrm (exportMapper [] []) cexPresetVrm).blendShapeMaster.blendShapeGroups.map
        (fun g => g.presetName)) = ["happyface"] ∧
    "happyface" ≠ "unknown" :=
  ⟨by decide, rfl, by decide⟩

/-- C6 amended: the conversion passes every blendshape group's
`presetName` through unchanged (so input groups already carrying
"unknown" — possibly several — coexist unchanged in the output, and
nothing is normalized to "unknown" by the conversion itself). -/
theorem presetName_passthrough {N M T N2 M2 T2 : Type} (mp : VrmMapper N M T N2 M2 T2)
    (vrm : Vrm N M T) :
    (convert_vrm mp vrm).blendShapeMaster.blendShapeGroups.map (fun g => g.presetName) =
      vrm.blendShapeMaster.blendShapeGroups.map (fun g => g.presetName) := by
  show (vrm.blendShapeMaster.blendShapeGroups.map (_convert_blendshape_group mp)).map
      (fun g => g.presetName) = _
  rw [List.map_map]
  rfl

/-- C7: during export every mesh-reference field — blendshape binds
and first-person mesh annotations alike — is resolved through the
skin-list scan `map_mesh_export` (the first skin equal to the
reference's first element determines the emitted index, with fallback
0). -/
theorem mesh_refs_resolved_via_skins (nodeMap : List (Nat × Nat)) (skins : List Nat)
    (vrm : Vrm Nat (List Nat) Nat) :
    ((convert_vrm (exportMapper nodeMap skins) vrm).blendShapeMaster.blendShapeGroups.map
        (fun g => g.binds.map (fun b => b.mesh))) =
      vrm.blendShapeMaster.blendShapeGroups.map
        (fun g => g.binds.map (fun b => (map_mesh_export skins b.mesh).1)) ∧
    ((convert_vrm (exportMapper nodeMap skins) vrm).firstPerson.meshAnnotations.map
        (fun a => a.mesh)) =
      vrm.firstPerson.meshAnnotations.map (fun a => (map_mesh_export skins a.mesh).1) ∧
    ∀ m : List Nat,
      (map_mesh_export skins m).1 = (skins.findIdx? (fun e => m.head? == some e)).getD 0 := by
  refine ⟨?_, ?_, ?_⟩
  · show (vrm.blendShapeMaster.blendShapeGroups.map
        (_convert_blendshape_group (exportMapper nodeMap skins))).map
        (fun g => g.binds.map (fun b => b.mesh)) = _
    rw [List.map_map]
    refine List.map_congr_left fun g _ => ?_
    show (g.binds.map (_convert_blendshape_bind (exportMapper nodeMap skins))).map
        (fun b => b.mesh) = _
    rw [List.map_map]
    rfl
  · show (vrm.firstPerson.meshAnnotations.map
        (_convert_firstperson_meshannot (exportMapper nodeMap skins))).map
        (fun a => a.mesh) = _
    rw [List.map_map]
    rfl
  · intro m
    unfold map_mesh_export
    cases skins.findIdx? (fun e => m.head? == some e) <;> rfl

/-- C5: an unresolvable reference never aborts the conversion: the
affected field is emitted as the fallback index 0, the failure is
reported as a warning (the `Bool` flag of the export resolvers), and
every sibling field — of the bone, of the bind, of its group, and of
the rest of the document — is produced intact. -/
theorem unresolved_reference_fallback (nodeMap : List (Nat × Nat)) (skins : List Nat)
    (vrm : Vrm Nat (List Nat) Nat) :
    (∀ (p : Nat) (bone : HumanoidBone Nat),
      vrm.humanoid.humanBones[p]? = some bone →
      List.lookup bone.node nodeMap = none →
      (convert_vrm (exportMapper nodeMap skins) vrm).humanoid.humanBones[p]? =
        some { bone := bone.bone, node := 0, useDefaultValues := bone.useDefaultValues
               min := bone.min, max := bone.max, center := bone.center
               axisLength := bone.axisLength } ∧
      (map_node_export nodeMap bone.node).2 = true) ∧
    (∀ (g : Nat) (grp : BlendShapeGroup (List Nat)),
      vrm.blendShapeMaster.blendShapeGroups[g]? = some grp →
      ∀ (b : Nat) (bind : BlendShapeBind (List Nat)),
      grp.binds[b]? = some bind →
      skins.findIdx? (fun e => bind.mesh.head? == some e) = none →
      ∃ grp2 : BlendShapeGroup Nat,
        (convert_vrm (exportMapper nodeMap skins) vrm).blendShapeMaster.blendShapeGroups[g]? =
          some grp2 ∧
        grp2.name = grp.name ∧ grp2.presetName = grp.presetName ∧
        grp2.materialValues = grp.materialValues ∧
        grp2.binds.length = grp.binds.length ∧
        grp2.binds[b]? = some { mesh := 0, index := bind.index, weight := bind.weight } ∧
        (∀ j : Nat, grp2.binds[j]? =
          (grp.binds[j]?).map (_convert_blendshape_bind (exportMapper nodeMap skins))) ∧
        (map_mesh_export skins bind.mesh).2 = true) ∧
    (∀ (a : Nat) (annot : MeshAnnot (List Nat)),
      vrm.firstPerson.meshAnnotations[a]? = some annot →
      skins.findIdx? (fun e => annot.mesh.head? == some e) = none →
      (convert_vrm (exportMapper nodeMap skins) vrm).firstPerson.meshAnnotations[a]? =
        some { mesh := 0, firstPersonFlag := annot.firstPersonFlag } ∧
      (map_mesh_export skins annot.mesh).2 = true) ∧
    (convert_vrm (exportMapper nodeMap skins) vrm).meta = vrm.meta ∧
    (convert_vrm (exportMapper nodeMap skins) vrm).materialProperties.length =
      vrm.materialProperties.length ∧
    (convert_vrm (exportMapper nodeMap skins) vrm).humanoid.humanBones.length =
      vrm.humanoid.humanBones.length ∧
    (convert_vrm (exportMapper nodeMap skins) vrm).blendShapeMaster.blendShapeGroups.length =
      vrm.blendShapeMaster.blendShapeGroups.length := by
  refine ⟨?_, ?_, ?_, rfl, by simp [convert_vrm],
    by simp [convert_vrm, _convert_humanoid], by simp [convert_vrm, _convert_blendshape]⟩
  · intro p bone hp hnone
    refine ⟨?_, by simp [map_node_export, hnone]⟩
    show (vrm.humanoid.humanBones.map (_convert_humanoid_bone (exportMapper nodeMap skins)))[p]?
        = _
    rw [List.getElem?_map, hp, Option.map_some']
    simp [_convert_humanoid_bone, exportMapper, map_node_export, hnone]
  · intro g grp hg b bind hb hnone
    refine ⟨_convert_blendshape_group (exportMapper nodeMap skins) grp, ?_,
      rfl, rfl, rfl, by simp [_convert_blendshape_group], ?_, ?_,
      by simp [map_mesh_export, hnone]⟩
    · show (vrm.blendShapeMaster.blendShapeGroups.map
          (_convert_blendshape_group (exportMapper nodeMap skins)))[g]? = _
      rw [List.getElem?_map, hg, Option.map_some']
    · show (grp.binds.map (_convert_blendshape_bind (exportMapper nodeMap skins)))[b]? = _
      rw [List.getElem?_map, hb, Option.map_some']
      simp [_convert_blendshape_bind, exportMapper, map_mesh_export, hnone]
    · intro j
      show (grp.binds.map (_convert_blendshape_bind (exportMapper nodeMap skins)))[j]? = _
      rw [List.getElem?_map]
  · intro a annot ha hnone
    refine ⟨?_, by simp [map_mesh_export, hnone]⟩
    show (vrm.firstPerson.meshAnnotations.map
        (_convert_firstperson_meshannot (exportMapper nodeMap skins)))[a]? = _
    rw [List.getElem?_map, ha, Option.map_some']
    simp [_convert_firstperson_meshannot, exportMapper, map_mesh_export, hnone]

/-- C5 witness on `danglingVrm` with empty node map and skin list:
the dangling bone node, the dangling bind mesh and the dangling
annotation mesh all fall back to 0 with a warning, siblings intact. -/
theorem unresolved_reference_fallback_witness :
    ((convert_vrm (exportMapper [] []) danglingVrm).humanoid.humanBones[0]? =
        some { bone := "hips", node := 0, useDefaultValues := true
               min := none, max := none, center := none, axisLength := none } ∧
      (map_node_export [] 3).2 = true) ∧
    (∃ grp2 : BlendShapeGroup Nat,
      (convert_vrm (exportMapper [] []) danglingVrm).blendShapeMaster.blendShapeGroups[0]? =
        some grp2 ∧
      grp2.name = "G" ∧ grp2.presetName = "neutral" ∧ grp2.materialValues = "mv" ∧
      grp2.binds.length = 1 ∧
      grp2.binds[0]? = some { mesh := 0, index := 1, weight := 2 } ∧
      (∀ j : Nat, grp2.binds[j]? =
        (([{ mesh := [4], index := 1, weight := 2 }] :
            List (BlendShapeBind (List Nat)))[j]?).map
          (_convert_blendshape_bind (exportMapper [] []))) ∧
      (map_mesh_export [] [4]).2 = true) ∧
    ((convert_vrm (exportMapper [] []) danglingVrm).firstPerson.meshAnnotations[0]? =
        some { mesh := 0, firstPersonFlag := "Auto" } ∧
      (map_mesh_export [] [4]).2 = true) :=
  ⟨(unresolved_reference_fallback [] [] danglingVrm).1 0
      { bone := "hips", node := 3, useDefaultValues := true
        min := none, max := none, center := none, axisLength := none } rfl rfl,
   (unresolved_reference_fallback [] [] danglingVrm).2.1 0
      { name := "G", presetName := "neutral"
        binds := [{ mesh := [4], index := 1, weight := 2 }], materialValues := "mv" }
      rfl 0 { mesh := [4], index := 1, weight := 2 } rfl rfl,
   (unresolved_reference_fallback [] [] danglingVrm).2.2.1 0
      { mesh := [4], firstPersonFlag := "Auto" } rfl rfl⟩

/-- C1 counterexample: `exVrm` has every node and mesh reference
resolvable in the export context (and back in the import context), yet
export followed by import loses `firstPerson.lookAtHorizontalOuter`:
the input carries `some 42`, the round-tripped document carries `none`
(the key is never emitted by `_convert_firstperson`), although the
claim allows losses only in `secondaryAnimation` and texture
references. -/
theorem round_trip_lookAtHorizontalOuter_cex :
    ((vrmNodeRefs exVrm).all
        (fun r => ((List.lookup r exNodeMap).bind (fun i => exNodes[i]?)) == some r)) = true ∧
    ((vrmMeshRefs exVrm).all
        (fun m => ((exSkins.findIdx? (fun e => m.head? == some e)).bind
          (fun j => exMeshes[j]?)) == some m)) = true ∧
    exVrm.firstPerson.lookAtHorizontalOuter = some 42 ∧
    (convert_vrm (importMapper exNodes exMeshes exTextures)
        (convert_vrm (exportMapper exNodeMap exSkins) exVrm)).firstPerson.lookAtHorizontalOuter
      = none :=
  ⟨by decide, by decide, rfl, rfl⟩

/-- C1 (amended): for a document whose node and mesh references all
resolve in the export context and resolve back to the same objects in
the import context, export followed by import reproduces the document
exactly, except that `secondaryAnimation` comes back empty, every
texture reference comes back as the import of the placeholder index 0,
and `firstPerson.lookAtHorizontalOuter` is dropped (absent from the
result); in particular all humanoid bone fields, all blendshape group
and bind fields, and every other firstPerson field are preserved. -/
theorem round_trip_amended (nodeMap : List (Nat × Nat)) (skins : List Nat)
    (nodes : List Nat) (meshes : List (List Nat)) (textures : List Nat)
    (D : Vrm Nat (List Nat) Nat)
    (hnode : ∀ r ∈ vrmNodeRefs D,
      (List.lookup r nodeMap).bind (fun i => nodes[i]?) = some r)
    (hmesh : ∀ m ∈ vrmMeshRefs D,
      (skins.findIdx? (fun e => m.head? == some e)).bind (fun j => meshes[j]?) = some m) :
    convert_vrm (importMapper nodes meshes textures)
      (convert_vrm (exportMapper nodeMap skins) D) =
      roundTripExpected textures[0]? D := by
  have hnodeR : ∀ r ∈ vrmNodeRefs D, nodes[(map_node_export nodeMap r).1]? = some r :=
    fun r hr => node_round nodeMap nodes r (hnode r hr)
  have hmeshR : ∀ m ∈ vrmMeshRefs D, meshes[(map_mesh_export skins m).1]? = some m :=
    fun m hm => mesh_round skins meshes m (hmesh m hm)
  have h1 : _convert_blendshape (importMapper nodes meshes textures)
      (_convert_blendshape (exportMapper nodeMap skins) D.blendShapeMaster) =
      { blendShapeGroups := D.blendShapeMaster.blendShapeGroups.map (fun g =>
          { name := g.name
            presetName := g.presetName
            binds := g.binds.map (fun b =>
              { mesh := some b.mesh, index := b.index, weight := b.weight })
            materialValues := g.materialValues }) } := by
    show BlendShapeMaster.mk
        ((D.blendShapeMaster.blendShapeGroups.map
            (_convert_blendshape_group (exportMapper nodeMap skins))).map
          (_convert_blendshape_group (importMapper nodes meshes textures))) = _
    rw [List.map_map]
    refine congrArg BlendShapeMaster.mk (List.map_congr_left fun g hg => ?_)
    show BlendShapeGroup.mk g.name g.presetName
        ((g.binds.map (_convert_blendshape_bind (exportMapper nodeMap skins))).map
          (_convert_blendshape_bind (importMapper nodes meshes textures)))
        g.materialValues = _
    rw [List.map_map]
    refine congrArg (fun bs => BlendShapeGroup.mk g.name g.presetName bs g.materialValues)
      (List.map_congr_left fun b hb => ?_)
    have hm : b.mesh ∈ vrmMeshRefs D := by
      unfold vrmMeshRefs
      refine List.mem_append_left _ (List.mem_flatten.mpr
        ⟨g.binds.map (fun b => b.mesh), List.mem_map_of_mem _ hg, List.mem_map_of_mem _ hb⟩)
    show BlendShapeBind.mk (meshes[(map_mesh_export skins b.mesh).1]?) b.index b.weight = _
    rw [hmeshR b.mesh hm]
  have h2 : _convert_humanoid (importMapper nodes meshes textures)
      (_convert_humanoid (exportMapper nodeMap skins) D.humanoid) =
      { humanBones := D.humanoid.humanBones.map (fun b =>
          { bone := b.bone, node := some b.node, useDefaultValues := b.useDefaultValues
            min := b.min, max := b.max, center := b.center, axisLength := b.axisLength })
        armStretch := D.humanoid.armStretch
        legStretch := D.humanoid.legStretch
        upperArmTwist := D.humanoid.upperArmTwist
        lowerArmTwist := D.humanoid.lowerArmTwist
        upperLegTwist := D.humanoid.upperLegTwist
        lowerLegTwist := D.humanoid.lowerLegTwist
        feetSpacing := D.humanoid.feetSpacing
        hasTranslationDoF := D.humanoid.hasTranslationDoF } := by
    show Humanoid.mk
        ((D.humanoid.humanBones.map (_convert_humanoid_bone (exportMapper nodeMap skins))).map
          (_convert_humanoid_bone (importMapper nodes meshes textures)))
        D.humanoid.armStretch D.humanoid.legStretch D.humanoid.upperArmTwist
        D.humanoid.lowerArmTwist D.humanoid.upperLegTwist D.humanoid.lowerLegTwist
        D.humanoid.feetSpacing D.humanoid.hasTranslationDoF = _
    rw [List.map_map]
    refine congrArg (fun bs => Humanoid.mk bs D.humanoid.armStretch D.humanoid.legStretch
      D.humanoid.upperArmTwist D.humanoid.lowerArmTwist D.humanoid.upperLegTwist
      D.humanoid.lowerLegTwist D.humanoid.feetSpacing D.humanoid.hasTranslationDoF)
      (List.map_congr_left fun bone hbone => ?_)
    have hn : bone.node ∈ vrmNodeRefs D := by
      unfold vrmNodeRefs
      exact List.mem_append_left _ (List.mem_map_of_mem _ hbone)
    show HumanoidBone.mk bone.bone (nodes[(map_node_export nodeMap bone.node).1]?)
        bone.useDefaultValues bone.min bone.max bone.center bone.axisLength = _
    rw [hnodeR bone.node hn]
  have h3 : _convert_firstperson (importMapper nodes meshes textures)
      (_convert_firstperson (exportMapper nodeMap skins) D.firstPerson) =
      { firstPersonBone := some D.firstPerson.firstPersonBone
        firstPersonBoneOffset := D.firstPerson.firstPersonBoneOffset
        meshAnnotations := D.firstPerson.meshAnnotations.map (fun a =>
          { mesh := some a.mesh, firstPersonFlag := a.firstPersonFlag })
        lookAtTypeName := D.firstPerson.lookAtTypeName
        lookAtHorizontalInner := D.firstPerson.lookAtHorizontalInner
        lookAtHorizontalOuter := none
        lookAtVerticalDown := D.firstPerson.lookAtVerticalDown
        lookAtVerticalUp := D.firstPerson.lookAtVerticalUp } := by
    have hfp : D.firstPerson.firstPersonBone ∈ vrmNodeRefs D := by
      unfold vrmNodeRefs
      exact List.mem_append_right _ (List.mem_singleton.mpr rfl)
    show FirstPerson.mk (nodes[(map_node_export nodeMap D.firstPerson.firstPersonBone).1]?)
        D.firstPerson.firstPersonBoneOffset
        ((D.firstPerson.meshAnnotations.map
            (_convert_firstperson_meshannot (exportMapper nodeMap skins))).map
          (_convert_firstperson_meshannot (importMapper nodes meshes textures)))
        D.firstPerson.lookAtTypeName D.firstPerson.lookAtHorizontalInner none
        D.firstPerson.lookAtVerticalDown D.firstPerson.lookAtVerticalUp = _
    rw [hnodeR _ hfp, List.map_map]
    refine congrArg (fun l => FirstPerson.mk (some D.firstPerson.firstPersonBone)
      D.firstPerson.firstPersonBoneOffset l D.firstPerson.lookAtTypeName
      D.firstPerson.lookAtHorizontalInner none D.firstPerson.lookAtVerticalDown
      D.firstPerson.lookAtVerticalUp) (List.map_congr_left fun a ha => ?_)
    have hma : a.mesh ∈ vrmMeshRefs D := by
      unfold vrmMeshRefs
      exact List.mem_append_right _ (List.mem_map_of_mem _ ha)
    show MeshAnnot.mk (meshes[(map_mesh_export skins a.mesh).1]?) a.firstPersonFlag = _
    rw [hmeshR _ hma]
  have h4 : (D.materialProperties.map (_convert_material (exportMapper nodeMap skins))).map
      (_convert_material (importMapper nodes meshes textures)) =
      D.materialProperties.map (fun m =>
        { name := m.name, shader := m.shader, renderQueue := m.renderQueue
          floatProperties := m.floatProperties, vectorProperties := m.vectorProperties
          textureProperties := m.textureProperties.map (fun kv => (kv.1, textures[0]?))
          keywordMap := m.keywordMap, tagMap := m.tagMap }) := by
    rw [List.map_map]
    refine List.map_congr_left fun m _ => ?_
    show MaterialProperties.mk m.name m.shader m.renderQueue m.floatProperties
        m.vectorProperties
        ((m.textureProperties.map (fun kv => (kv.1, map_texture_export kv.2))).map
          (fun kv => (kv.1, textures[kv.2]?)))
        m.keywordMap m.tagMap = _
    rw [List.map_map]
    rfl
  show Vrm.mk
      (_convert_blendshape (importMapper nodes meshes textures)
        (_convert_blendshape (exportMapper nodeMap skins) D.blendShapeMaster))
      (_convert_humanoid (importMapper nodes meshes textures)
        (_convert_humanoid (exportMapper nodeMap skins) D.humanoid))
      (_convert_firstperson (importMapper nodes meshes textures)
        (_convert_firstperson (exportMapper nodeMap skins) D.firstPerson))
      ((D.materialProperties.map (_convert_material (exportMapper nodeMap skins))).map
        (_convert_material (importMapper nodes meshes textures)))
      D.meta [] = _
  rw [h1, h2, h3, h4]
  rfl

/-- C1 witness: round-tripping the fully resolvable `exVrm` through
the concrete export and import contexts gives exactly the expected
image. -/
theorem round_trip_amended_witness :
    convert_vrm (importMapper exNodes exMeshes exTextures)
      (convert_vrm (exportMapper exNodeMap exSkins) exVrm) =
      roundTripExpected exTextures[0]? exVrm :=
  round_trip_amended exNodeMap exSkins exNodes exMeshes exTextures exVrm
    (by decide) (by decide)

end MevVrm
